import Mathlib

/-
Verification development for the valr-client library.

This file gives a shallow embedding, in Lean, of the request-signing
function, the schema-driven decoder and the websocket pipeline of the
valrpy package, and proves properties of the embedded definitions.

Conventions of the embedding:
- Python strings are modelled over the ASCII fragment: the case
  predicates (isupper, islower, isalpha) and case mappings are taken
  from the Lean Char API, which agrees with Python on ASCII. Wire keys
  and enum values in this library are all ASCII.
- Python float values are modelled by their shortest round-trip decimal
  representation, because the decoder only ever consumes a float through
  str(f) or through exact arithmetic that we model over the rationals.
- Python dict values are modelled as association lists; assignment
  semantics is modelled with a lookup that takes the last binding.
- Exceptions are modelled with Except String; the message text is
  shortened but the success or failure behaviour follows the source.
-/

set_option maxRecDepth 100000

/- The Batteries rational arithmetic operations are marked irreducible
for performance of interactive use; the concrete evaluations below
need them to reduce, so their reducibility is restored here. -/
set_option allowUnsafeReducibility true in
attribute [semireducible] Rat.mul Rat.inv Rat.add Rat.sub Rat.div

namespace Valr

/-! ## Python string helpers (ASCII fragment) -/

/-- A character is cased when it has an upper or a lower case form.
Restriction of the Python notion to ASCII. -/
def is_cased (c : Char) : Bool := c.isUpper || c.isLower

/-- Model of Python str.islower: at least one cased character and every
cased character is lower case. -/
def py_islower (cs : List Char) : Bool :=
  cs.any is_cased && cs.all (fun c => !is_cased c || c.isLower)

/-- Model of Python str.lower over ASCII, character by character. -/
def py_lower (s : String) : String := String.mk (s.data.map Char.toLower)

/-- Model of Python str.upper over ASCII, character by character. -/
def py_upper (s : String) : String := String.mk (s.data.map Char.toUpper)

/-- Model of Python str.isdecimal: nonempty and every character a digit. -/
def py_isdecimal (s : String) : Bool := !s.data.isEmpty && s.data.all Char.isDigit

/-- The character loop of convert_to_snake_case in valrpy.messages.core:
an upper case alphabetic character becomes an underscore followed by its
lower case form, every other character is kept. -/
def snake_expand : List Char → List Char
  | [] => []
  | c :: rest =>
      if c.isAlpha && c.isUpper then '_' :: c.toLower :: snake_expand rest
      else c :: snake_expand rest

/-- Scanning loop of str.replace. The first argument is fuel for the
recursion, consumed once per inspected position; the caller passes the
length of the scanned list, which the scan never exceeds because every
step consumes at least one character. Definitions in this file recurse
on fuel so that they compute by kernel reduction. -/
def replace_all_go (pat repl : List Char) : Nat → List Char → List Char
  | 0, s => s
  | _ + 1, [] => []
  | fuel + 1, c :: rest =>
      if pat.isPrefixOf (c :: rest) then
        repl ++ replace_all_go pat repl fuel (rest.drop (pat.length - 1))
      else
        c :: replace_all_go pat repl fuel rest

/-- Model of Python str.replace for a nonempty pattern: replace every
non-overlapping occurrence of pat, scanning left to right. -/
def replace_all (pat repl s : List Char) : List Char :=
  replace_all_go pat repl s.length s

/-- Model of the private function convert_to_snake_case of
valrpy.messages.core: an all lower case key is returned unchanged;
otherwise upper case characters are expanded to an underscore plus the
lower case form, the substring sub_account is rewritten to subaccount,
and leading underscores are stripped. -/
def convert_to_snake_case (camel : String) : String :=
  if py_islower camel.data then camel
  else
    let snake := snake_expand camel.data
    let snake := replace_all "sub_account".data "subaccount".data snake
    String.mk (snake.dropWhile (fun c => c == '_'))

/-! ## Untyped wire values -/

/-- An untyped value as produced by json.loads: the exact domain that the
decoder of valrpy.messages.core receives. A float carries its shortest
round-trip decimal representation (see the file header). -/
inductive PyValue where
  | none
  | bool (b : Bool)
  | int (n : Int)
  | float (repr : String)
  | str (s : String)
  | list (items : List PyValue)
  | dict (entries : List (String × PyValue))

/-- True exactly on the Python None value. -/
def is_none : PyValue → Bool
  | .none => true
  | _ => false

/-- Model of dict.get(key) with default None: the last binding of the key
wins, as with Python dict assignment. -/
def dict_get (entries : List (String × PyValue)) (key : String) : PyValue :=
  match entries.reverse.find? (fun kv => kv.1 == key) with
  | some kv => kv.2
  | Option.none => .none

mutual

/-- Value side of the recursive key normalization of
valrpy.messages.core apply_snake_case: only dict values are entered,
lists are kept as they are, exactly as in the source. -/
def snake_val : PyValue → PyValue
  | .dict entries => .dict (apply_snake_case entries)
  | v => v
termination_by structural v => v

/-- Model of the private function apply_snake_case of
valrpy.messages.core: every key is rewritten with
convert_to_snake_case and dict values are normalized recursively. -/
def apply_snake_case : List (String × PyValue) → List (String × PyValue)
  | [] => []
  | (k, v) :: rest => (convert_to_snake_case k, snake_val v) :: apply_snake_case rest
termination_by structural entries => entries

end

/-! ## Exact decimal strings -/

/-- Value of a list of ASCII digits read in base ten. -/
def digits_to_nat (ds : List Char) : Nat :=
  ds.foldl (fun a c => 10 * a + (c.toNat - 48)) 0

/-- Model of the decimal.Decimal constructor on finite numeric strings:
optional surrounding spaces, optional sign, digits with at most one
point, optional exponent part. The value is exact, never a binary
float. Special values such as NaN are outside the model. -/
def parse_decimal (s : String) : Option ℚ :=
  let cs := s.data.dropWhile (fun c => c == ' ')
  let cs := (cs.reverse.dropWhile (fun c => c == ' ')).reverse
  let signAndRest : ℚ × List Char :=
    match cs with
    | '+' :: r => (1, r)
    | '-' :: r => (-1, r)
    | r => (1, r)
  let sign := signAndRest.1
  let cs := signAndRest.2
  let mant := cs.takeWhile (fun c => !(c == 'e' || c == 'E'))
  let expTail := cs.dropWhile (fun c => !(c == 'e' || c == 'E'))
  let expVal : Option Int :=
    match expTail with
    | [] => some 0
    | _ :: expCs =>
        let esignAndRest : Int × List Char :=
          match expCs with
          | '+' :: r => (1, r)
          | '-' :: r => (-1, r)
          | r => (1, r)
        if !esignAndRest.2.isEmpty && esignAndRest.2.all Char.isDigit then
          some (esignAndRest.1 * (digits_to_nat esignAndRest.2 : Int))
        else Option.none
  let ipart := mant.takeWhile (fun c => !(c == '.'))
  let fracTail := mant.dropWhile (fun c => !(c == '.'))
  let fpart : Option (List Char) :=
    match fracTail with
    | [] => some []
    | _ :: r => if r.any (fun c => c == '.') then Option.none else some r
  match expVal, fpart with
  | some e, some f =>
      if !(ipart ++ f).isEmpty && (ipart ++ f).all Char.isDigit then
        let base := sign * (digits_to_nat (ipart ++ f) : ℚ)
        let shift : Int := e - f.length
        some (if 0 ≤ shift then base * ((10 ^ shift.toNat : ℕ) : ℚ)
              else base / ((10 ^ (-shift).toNat : ℕ) : ℚ))
      else Option.none
  | _, _ => Option.none

/-- Truncation of a rational toward zero, the behaviour of the Python
int constructor on a float. -/
def rat_trunc (q : ℚ) : Int := if 0 ≤ q then Int.floor q else Int.ceil q

/-- Model of the Python int constructor on a string: optional
surrounding spaces, optional sign, at least one digit. -/
def py_int_of_string (s : String) : Option Int :=
  let cs := s.data.dropWhile (fun c => c == ' ')
  let cs := (cs.reverse.dropWhile (fun c => c == ' ')).reverse
  let signAndRest : Int × List Char :=
    match cs with
    | '+' :: r => (1, r)
    | '-' :: r => (-1, r)
    | r => (1, r)
  if !signAndRest.2.isEmpty && signAndRest.2.all Char.isDigit then
    some (signAndRest.1 * (digits_to_nat signAndRest.2 : Int))
  else Option.none

/-! ## Timestamps

A timezone aware datetime with the UTC zone is modelled by its count of
microseconds since the epoch. On the 64 bit glibc platform the library
runs on, datetime.fromtimestamp has three distinct failure regimes. An
instant whose year falls outside 1 to 9999 but whose whole seconds
gmtime can still convert raises a ValueError whose message contains the
words out of range; this is the only exception the probing loop of
timestamp_to_datetime catches. Whole seconds past the gmtime range but
inside a 64 bit time_t raise an OSError, and values outside the time_t
range raise an OverflowError; neither of those two is caught anywhere
in the repository, so they abort the probing. Division by the probing
resolution is modelled exactly over the rationals, and the rounding of
an exact value to microseconds is the identity, so the floor of the
shifted value agrees with the Python rounding on every input appearing
in this development. -/

/-- Epoch seconds of 0001-01-01T00:00:00 UTC. -/
def min_epoch_seconds : ℚ := -62135596800

/-- Epoch seconds of 9999-12-31T23:59:59.999999 UTC. -/
def max_epoch_seconds : ℚ := 253402300799 + 999999 / 1000000

/-- Largest whole epoch second that gmtime converts on a 64 bit glibc
platform: the last second of the last year whose tm_year fits in an
int. Past it, datetime.fromtimestamp raises an uncaught OSError. -/
def max_gmtime_seconds : Int := 67768036191676799

/-- Smallest whole epoch second that gmtime converts on the same
platform. Below it, datetime.fromtimestamp raises an uncaught
OSError. -/
def min_gmtime_seconds : Int := -67768040609740800

/-- Outcome of a call to datetime.fromtimestamp: the instant as
microseconds since the epoch; the year out of range ValueError, the
only exception the probing loop catches; or an uncaught error carrying
its message. -/
inductive FromtimestampResult where
  | ok (usec : Int)
  | year_out_of_range
  | uncaught (msg : String)
deriving DecidableEq

/-- Model of datetime.fromtimestamp with the UTC zone. An instant whose
year lies between 1 and 9999 is converted to microseconds since the
epoch; otherwise the whole seconds decide the exception: the caught
year out of range ValueError while gmtime can still convert them, an
uncaught OSError past the gmtime range but within a 64 bit time_t, and
an uncaught OverflowError beyond the time_t range. -/
def fromtimestamp_utc (secs : ℚ) : FromtimestampResult :=
  if min_epoch_seconds ≤ secs ∧ secs ≤ max_epoch_seconds then
    .ok (Int.floor (secs * 1000000 + 1 / 2))
  else if min_gmtime_seconds ≤ Int.floor secs ∧ Int.floor secs ≤ max_gmtime_seconds then
    .year_out_of_range
  else if -(2 ^ 63) ≤ Int.floor secs ∧ Int.floor secs < 2 ^ 63 then
    .uncaught "OSError: Value too large for defined data type"
  else
    .uncaught "OverflowError: timestamp out of range for platform time_t"

/-- The probing loop of timestamp_to_datetime over the remaining
resolutions: the first successful conversion is returned, a caught out
of range ValueError moves on to the next resolution, an uncaught error
propagates at once, and exhausting the resolutions raises the final
ValueError of the loop. -/
def timestamp_probe (t : ℚ) : List ℚ → Except String Int
  | [] => .error "ValueError: cannot convert timestamp to datetime"
  | res :: rest =>
      match fromtimestamp_utc (t / res) with
      | .ok d => .ok d
      | .year_out_of_range => timestamp_probe t rest
      | .uncaught msg => .error msg

/-- Model of the private function timestamp_to_datetime of
valrpy.messages.core: probe the resolutions one, one thousand, one
million, one billion in that order. -/
def timestamp_to_datetime (t : ℚ) : Except String Int :=
  timestamp_probe t [1, 1000, 1000000, 1000000000]

/-- Proleptic Gregorian date of a count of days since 1970-01-01, the
standard civil from days algorithm. -/
def civil_from_days (z0 : Int) : Int × Int × Int :=
  let z := z0 + 719468
  let era := z.fdiv 146097
  let doe := z - era * 146097
  let yoe := (doe - doe.fdiv 1460 + doe.fdiv 36524 - doe.fdiv 146096).fdiv 365
  let y := yoe + era * 400
  let doy := doe - (365 * yoe + yoe.fdiv 4 - yoe.fdiv 100)
  let mp := (5 * doy + 2).fdiv 153
  let d := doy - (153 * mp + 2).fdiv 5 + 1
  let m := mp + (if mp < 10 then 3 else -9)
  (y + (if m ≤ 2 then 1 else 0), m, d)

/-- Count of days since 1970-01-01 of a proleptic Gregorian date, the
standard days from civil algorithm. -/
def days_from_civil (y0 m d : Int) : Int :=
  let y := y0 - (if m ≤ 2 then 1 else 0)
  let era := y.fdiv 400
  let yoe := y - era * 400
  let doy := (153 * (m + (if 2 < m then -3 else 9)) + 2).fdiv 5 + d - 1
  let doe := yoe * 365 + yoe.fdiv 4 - yoe.fdiv 100 + doy
  era * 146097 + doe - 719468

/-- UTC calendar date of a datetime given as microseconds since the
epoch. -/
def utc_date (usec : Int) : Int × Int × Int :=
  civil_from_days (usec.fdiv 86400000000)

/-- Whether a proleptic Gregorian year is a leap year. -/
def is_leap_year (y : Int) : Bool :=
  (y % 4 == 0 && y % 100 != 0) || y % 400 == 0

/-- Number of days of a month of the proleptic Gregorian calendar. -/
def days_in_month (y m : Int) : Int :=
  if m == 2 then (if is_leap_year y then 29 else 28)
  else if m == 4 || m == 6 || m == 9 || m == 11 then 30
  else 31

/-- Fixed width parser for the string produced by the datetime branch of
the decoder after its surgery: exactly the format string of
valrpy.constants, year-month-dayThour:minute:second.microsecond with
six fractional digits. The field checks model the validation done by
strptime and by the datetime constructor: in particular the day must
exist in its month, so 2023-02-31 is rejected. -/
def parse_iso_datetime : List Char → Option Int
  | [y1, y2, y3, y4, '-', m1, m2, '-', d1, d2, 'T',
     h1, h2, ':', n1, n2, ':', s1, s2, '.', f1, f2, f3, f4, f5, f6] =>
      if ([y1, y2, y3, y4, m1, m2, d1, d2, h1, h2, n1, n2, s1, s2,
           f1, f2, f3, f4, f5, f6].all Char.isDigit) then
        let y : Int := digits_to_nat [y1, y2, y3, y4]
        let m : Int := digits_to_nat [m1, m2]
        let d : Int := digits_to_nat [d1, d2]
        let hh : Int := digits_to_nat [h1, h2]
        let mm : Int := digits_to_nat [n1, n2]
        let ss : Int := digits_to_nat [s1, s2]
        let ff : Int := digits_to_nat [f1, f2, f3, f4, f5, f6]
        if 1 ≤ y ∧ y ≤ 9999 ∧ 1 ≤ m ∧ m ≤ 12 ∧ 1 ≤ d ∧ d ≤ days_in_month y m ∧
            hh ≤ 23 ∧ mm ≤ 59 ∧ ss ≤ 59 then
          some (days_from_civil y m d * 86400000000 +
            (hh * 3600 + mm * 60 + ss) * 1000000 + ff)
        else Option.none
      else Option.none
  | _ => Option.none

/-! ## Typed values and field contracts -/

/-- A decoded value: the result domain of the coercion engine. A record
is the model of a MessageElement instance, with its parsed fields. The
raw constructor carries a value returned unchanged by an instance
check; it never arises for the container values of this development. -/
inductive TypedValue where
  | null
  | bool (b : Bool)
  | int (n : Int)
  | str (s : String)
  | decimal (q : ℚ)
  | datetime (usec : Int)
  | enum_val (value : String)
  | list (items : List TypedValue)
  | record (fields : List (String × TypedValue))
  | raw (v : PyValue)

/-- A declared field contract: the shape of a type annotation as read by
the decoder through get_type_hints. An enum carries the list of its
declared string values; an element carries the declared field schema of
a nested MessageElement class; union2 is a PEP 604 union of exactly two
alternatives as it appears in the dataclass annotations. -/
inductive DesiredType where
  | str
  | int
  | bool
  | decimal
  | datetime
  | enum (variants : List String)
  | element (schema : List (String × DesiredType))
  | optional (t : DesiredType)
  | list (t : DesiredType)
  | union2 (a b : DesiredType)

/-- Whether the printed name of the annotation starts with
typing.Optional: true exactly for the optional contract. A PEP 604
union prints with a vertical bar and never matches. -/
def is_optional_head : DesiredType → Bool
  | .optional _ => true
  | _ => false

/-- Model of the Python isinstance check of an untyped wire value
against the class form of a contract. A bool is an instance of int; no
wire value is an instance of Decimal, datetime, an enum class or a
MessageElement class; for a union the check succeeds when it succeeds
for one of the alternatives. -/
def isinstance_of (v : PyValue) : DesiredType → Bool
  | .union2 a b => isinstance_of v a || isinstance_of v b
  | .str => match v with
      | .str _ => true
      | _ => false
  | .int => match v with
      | .int _ => true
      | .bool _ => true
      | _ => false
  | .bool => match v with
      | .bool _ => true
      | _ => false
  | _ => false

/-- Identity embedding of a wire value that passed an instance check. -/
def embed_value : PyValue → TypedValue
  | .none => .null
  | .bool b => .bool b
  | .int n => .int n
  | .str s => .str s
  | v => .raw v

/-- An ASCII apostrophe, written by code point to keep the source free
of quoting pitfalls. -/
def quote_char : Char := Char.ofNat 39

mutual

/-- Model of the Python repr of an untyped value, used by the str
fallback of the coercion engine. String escaping is not modelled. -/
def py_repr : PyValue → String
  | .none => "None"
  | .bool b => if b then "True" else "False"
  | .int n => toString n
  | .float r => r
  | .str s => String.mk (quote_char :: (s.data ++ [quote_char]))
  | .list items => "[" ++ py_repr_items items ++ "]"
  | .dict entries => "\x7b" ++ py_repr_entries entries ++ "\x7d"
termination_by structural v => v

/-- Comma separated reprs of the items of a list. -/
def py_repr_items : List PyValue → String
  | [] => ""
  | [v] => py_repr v
  | v :: rest => py_repr v ++ ", " ++ py_repr_items rest
termination_by structural items => items

/-- Comma separated entries of a dict repr. -/
def py_repr_entries : List (String × PyValue) → String
  | [] => ""
  | [(k, v)] =>
      String.mk (quote_char :: (k.data ++ [quote_char])) ++ ": " ++ py_repr v
  | (k, v) :: rest =>
      String.mk (quote_char :: (k.data ++ [quote_char])) ++ ": " ++ py_repr v
        ++ ", " ++ py_repr_entries rest
termination_by structural entries => entries

end

/-- Model of the Python str builtin: a string is returned as itself,
every other value through its repr. -/
def py_str : PyValue → String
  | .str s => s
  | v => py_repr v

/-- Normalization applied by the enum retry of the coercion engine:
upper case the string, then map hyphen and space to underscore, in the
order of the source. -/
def enum_normalize (s : String) : String :=
  String.mk ((s.data.map Char.toUpper).map
    (fun c => if c == '-' || c == ' ' then '_' else c))

/-- Lift of a timestamp conversion into the typed value domain. -/
def datetime_of (r : Except String Int) : Except String TypedValue :=
  match r with
  | .ok us => .ok (.datetime us)
  | .error e => .error e

mutual

/-- Model of the private function parse_to_desired_type of
valrpy.messages.core. The source is one sequence of type tests on the
desired type and the received object; because those tests are mutually
exclusive in the class of the desired type, the sequence is rendered
here as one match on the contract, with the branches ordered inside
each case exactly as in the source. Points of note, all taken from the
source:
- a None object with a contract not printed as typing.Optional is
  rejected before anything else;
- for a list contract the object is iterated as Python does: a string
  yields its characters, a dict yields its keys, and every other non
  list object fails as not iterable;
- an instance check precedes the conversions, so a bool satisfies an
  int contract and any matching side satisfies a union contract;
- for a union contract that no instance check satisfies, the source
  then calls issubclass on the union object, which raises a TypeError
  because a PEP 604 union is not a class: the branch therefore always
  fails;
- a float under a decimal contract goes through its string
  representation, never through a binary value;
- a bool under a datetime contract is an instance of int and is probed
  as the epoch value zero or one;
- a nested record contract inlines the body of from_raw, stated again
  as the standalone from_raw below, the two related by the theorem
  from_raw_spec;
- the final fallback calls the desired class on the object, rendered
  per class in the corresponding branch. -/
def parse_to_desired_type : PyValue → DesiredType → Except String TypedValue
  | v, t =>
    if is_none v && !is_optional_head t then
      .error "TypeError: param does not accept None"
    else
      match t with
      | .optional t1 =>
          if is_none v then .ok .null
          else parse_to_desired_type v t1
      | .list t1 =>
          match v with
          | .list items => do
              let parsed ← items.mapM (fun item => parse_to_desired_type item t1)
              return .list parsed
          | .str s => do
              let parsed ← (s.data.map (fun c => PyValue.str (String.mk [c]))).mapM
                (fun item => parse_to_desired_type item t1)
              return .list parsed
          | .dict entries => do
              let parsed ← (entries.map (fun kv => PyValue.str kv.1)).mapM
                (fun item => parse_to_desired_type item t1)
              return .list parsed
          | _ => .error "TypeError: object is not iterable"
      | .enum variants =>
          match v with
          | .str s =>
              if variants.contains s then .ok (.enum_val s)
              else
                let norm := enum_normalize s
                if variants.contains norm then .ok (.enum_val norm)
                else .error "ValueError: not a valid enum member"
          | _ => .error "TypeError: can only convert strings to Enum"
      | .union2 a b =>
          if isinstance_of v (.union2 a b) then .ok (embed_value v)
          else .error "TypeError: issubclass arg 1 must be a class"
      | .decimal =>
          match v with
          | .float r =>
              match parse_decimal r with
              | some q => .ok (.decimal q)
              | Option.none => .error "InvalidOperation"
          | .int n => .ok (.decimal (n : ℚ))
          | .bool b => .ok (.decimal (if b then 1 else 0))
          | .str s =>
              match parse_decimal s with
              | some q => .ok (.decimal q)
              | Option.none => .error "InvalidOperation"
          | _ => .error "TypeError: conversion to Decimal"
      | .bool =>
          match v with
          | .bool b => .ok (.bool b)
          | .str s => .ok (.bool (py_lower s == "true"))
          | _ => .error "TypeError: cannot convert object to bool"
      | .datetime =>
          match v with
          | .int n => datetime_of (timestamp_to_datetime (n : ℚ))
          | .bool b => datetime_of (timestamp_to_datetime (if b then 1 else 0))
          | .float r =>
              match parse_decimal r with
              | some q => datetime_of (timestamp_to_datetime q)
              | Option.none => .error "InvalidOperation"
          | .str s =>
              if py_isdecimal s then
                datetime_of (timestamp_to_datetime ((digits_to_nat s.data : Int) : ℚ))
              else
                let cs := (s.data.reverse.dropWhile (fun c => c == 'Z')).reverse
                let cs := if cs.all (fun c => !(c == '.'))
                  then cs.take 19 ++ ".000".data else cs
                let cs := if 26 < cs.length then cs.take 26
                  else cs ++ List.replicate (26 - cs.length) '0'
                match parse_iso_datetime cs with
                | some us => .ok (.datetime us)
                | Option.none => .error "ValueError: time data does not match format"
          | _ => .error "TypeError: cannot convert object to datetime"
      | .element schema =>
          match v with
          | .dict entries =>
              let snaked := apply_snake_case entries
              if snaked.any (fun kv => !(schema.any (fun f => f.1 == kv.1))) then
                .error "ValueError: from_raw received unexpected args"
              else do
                let fields ← parse_fields snaked schema
                return .record fields
          | _ => .error "TypeError: cannot convert object to MessageElement"
      | .str =>
          match v with
          | .str s => .ok (.str s)
          | w => .ok (.str (py_str w))
      | .int =>
          match v with
          | .int n => .ok (.int n)
          | .bool b => .ok (.bool b)
          | .str s =>
              match py_int_of_string s with
              | some n => .ok (.int n)
              | Option.none => .error "ValueError: invalid literal for int"
          | .float r =>
              match parse_decimal r with
              | some q => .ok (.int (rat_trunc q))
              | Option.none => .error "InvalidOperation"
          | _ => .error "TypeError: conversion to int"
termination_by structural _ t => t

/-- Field loop of MessageElement.from_raw: each declared field is parsed
from the normalized payload with parse_to_desired_type, a missing key
giving None. -/
def parse_fields : List (String × PyValue) →
    List (String × DesiredType) → Except String (List (String × TypedValue))
  | _, [] => .ok []
  | raw, (name, t) :: rest => do
      let v ← parse_to_desired_type (dict_get raw name) t
      let tail ← parse_fields raw rest
      return (name, v) :: tail
termination_by structural _ schema => schema

end

/-- Model of the classmethod MessageElement.from_raw of
valrpy.messages.core for a class whose declared fields are the given
schema: normalize the keys of the raw dict, reject any normalized key
that is not a declared field, then parse every declared field from the
normalized dict, reading a missing key as None. The body restates the
nested record branch of parse_to_desired_type, which inlines it; the
theorem from_raw_spec records that the two agree. -/
def from_raw (schema : List (String × DesiredType))
    (raw : List (String × PyValue)) : Except String TypedValue := do
  let snaked := apply_snake_case raw
  if snaked.any (fun kv => !(schema.any (fun f => f.1 == kv.1))) then
    .error "ValueError: from_raw received unexpected args"
  else
    let fields ← parse_fields snaked schema
    return .record fields

/-! ## Declared enums and schemas

The schemas below transcribe the dataclass annotations of
valrpy.messages.core and valrpy.messages.websocket, in declaration
order, with the enum classes of valrpy.enums transcribed by their
declared string values. -/

/-- Values of the enum OrderSide. -/
def order_side_variants : List String := ["BUY", "SELL"]

/-- Fields of AggregatedOrderbookLevel. -/
def aggregated_orderbook_level_schema : List (String × DesiredType) :=
  [("side", .enum order_side_variants),
   ("quantity", .decimal),
   ("price", .decimal),
   ("currency_pair", .str),
   ("order_count", .optional .int)]

/-- Fields of AggregatedOrderbook. -/
def aggregated_orderbook_schema : List (String × DesiredType) :=
  [("asks", .list (.element aggregated_orderbook_level_schema)),
   ("bids", .list (.element aggregated_orderbook_level_schema)),
   ("last_change", .datetime),
   ("sequence_number", .int)]

/-- Fields of CurrencyInfo. -/
def currency_info_schema : List (String × DesiredType) :=
  [("symbol", .str),
   ("decimal_places", .int),
   ("is_active", .bool),
   ("short_name", .str),
   ("long_name", .str),
   ("collateral", .optional .bool),
   ("collateral_weight", .optional .decimal),
   ("id", .optional .int),
   ("payment_reference_field_name", .optional .str),
   ("supported_withdraw_decimal_places", .optional .int),
   ("withdraw_decimal_places", .optional .int)]

/-- Fields of CurrencyPairInfo; the two currency fields are declared as
a PEP 604 union of a bare string and a nested CurrencyInfo record. -/
def currency_pair_info_schema : List (String × DesiredType) :=
  [("id", .optional .int),
   ("symbol", .str),
   ("base_currency", .union2 .str (.element currency_info_schema)),
   ("quote_currency", .union2 .str (.element currency_info_schema)),
   ("short_name", .str),
   ("exchange", .optional .str),
   ("active", .bool),
   ("tick_size", .decimal),
   ("base_decimal_places", .int),
   ("margin_trading_allowed", .bool),
   ("min_base_amount", .decimal),
   ("max_base_amount", .decimal),
   ("min_quote_amount", .decimal),
   ("max_quote_amount", .decimal)]

/-- Fields of WebsocketOrderbookOrder. -/
def websocket_orderbook_order_schema : List (String × DesiredType) :=
  [("order_id", .str),
   ("quantity", .decimal)]

/-- Fields of WebsocketFullOrderbookLevel. -/
def websocket_full_orderbook_level_schema : List (String × DesiredType) :=
  [("price", .decimal),
   ("orders", .list (.element websocket_orderbook_order_schema))]

/-- Fields of WebsocketFullOrderbook. -/
def websocket_full_orderbook_schema : List (String × DesiredType) :=
  [("last_change", .datetime),
   ("asks", .list (.element websocket_full_orderbook_level_schema)),
   ("bids", .list (.element websocket_full_orderbook_level_schema)),
   ("sequence_number", .int),
   ("checksum", .optional .int)]

/-! ## Websocket message types and the message handler -/

/-- The members of the enum WebsocketMessageType of valrpy.enums. -/
inductive WebsocketMessageType where
  | authenticated
  | ping
  | pong
  | subscribe
  | unsubscribe
  | subscribed
  | unsubscribed
  | no_subscriptions
  | new_account_history_record
  | balance_update
  | new_account_trade
  | instant_order_completed
  | open_orders_update
  | order_processed
  | order_status_update
  | failed_cancel_order
  | new_pending_receive
  | send_status_update
  | aggregated_orderbook_update
  | full_orderbook_update
  | market_summary_update
  | new_trade_bucket
  | new_trade
  | mark_price_update
deriving DecidableEq

/-- The declared string value of each WebsocketMessageType member. -/
def wmt_value : WebsocketMessageType → String
  | .authenticated => "AUTHENTICATED"
  | .ping => "PING"
  | .pong => "PONG"
  | .subscribe => "SUBSCRIBE"
  | .unsubscribe => "UNSUBSCRIBE"
  | .subscribed => "SUBSCRIBED"
  | .unsubscribed => "UNSUBSCRIBED"
  | .no_subscriptions => "NO_SUBSCRIPTIONS"
  | .new_account_history_record => "NEW_ACCOUNT_HISTORY_RECORD"
  | .balance_update => "BALANCE_UPDATE"
  | .new_account_trade => "NEW_ACCOUNT_TRADE"
  | .instant_order_completed => "INSTANT_ORDER_COMPLETED"
  | .open_orders_update => "OPEN_ORDERS_UPDATE"
  | .order_processed => "ORDER_PROCESSED"
  | .order_status_update => "ORDER_STATUS_UPDATE"
  | .failed_cancel_order => "FAILED_CANCEL_ORDER"
  | .new_pending_receive => "NEW_PENDING_RECEIVE"
  | .send_status_update => "SEND_STATUS_UPDATE"
  | .aggregated_orderbook_update => "AGGREGATED_ORDERBOOK_UPDATE"
  | .full_orderbook_update => "FULL_ORDERBOOK_UPDATE"
  | .market_summary_update => "MARKET_SUMMARY_UPDATE"
  | .new_trade_bucket => "NEW_TRADE_BUCKET"
  | .new_trade => "NEW_TRADE"
  | .mark_price_update => "MARK_PRICE_UPDATE"

/-- All members of WebsocketMessageType, in declaration order. -/
def wmt_all : List WebsocketMessageType :=
  [.authenticated, .ping, .pong, .subscribe, .unsubscribe, .subscribed,
   .unsubscribed, .no_subscriptions, .new_account_history_record,
   .balance_update, .new_account_trade, .instant_order_completed,
   .open_orders_update, .order_processed, .order_status_update,
   .failed_cancel_order, .new_pending_receive, .send_status_update,
   .aggregated_orderbook_update, .full_orderbook_update,
   .market_summary_update, .new_trade_bucket, .new_trade,
   .mark_price_update]

/-- Model of the enum constructor WebsocketMessageType(raw): lookup of a
member by its declared value. -/
def parse_wmt (s : String) : Option WebsocketMessageType :=
  wmt_all.find? (fun m => wmt_value m == s)

/-- Transcription of the method WebsocketMessageType.has_data of
valrpy.enums: the eight protocol acknowledgement members carry no
payload, every other member does. -/
def has_data : WebsocketMessageType → Bool
  | .authenticated => false
  | .ping => false
  | .pong => false
  | .subscribe => false
  | .unsubscribe => false
  | .subscribed => false
  | .unsubscribed => false
  | .no_subscriptions => false
  | _ => true

/-- A parsed websocket message, the model of the dataclass ParsedMessage
of valrpy.messages.websocket: the message type together with its
decoded payload. -/
structure ParsedMessage where
  type : WebsocketMessageType
  data : TypedValue

/-- Entry point of from_raw on an arbitrary payload value: the source
calls from_raw directly on the data field, and a non dict payload fails
inside the key normalization with an AttributeError. -/
def from_raw_value (schema : List (String × DesiredType)) (v : PyValue) :
    Except String TypedValue :=
  match v with
  | .dict entries => from_raw schema entries
  | _ => .error "AttributeError: object has no items method"

/-- Payload dispatch of the static method
ValrWebsocketConnector.message_handler. The source dispatches with a
match statement whose second case is the or pattern of
FULL_ORDERBOOK_UPDATE with FULL_ORDERBOOK_SNAPSHOT; the enum
WebsocketMessageType declares no member FULL_ORDERBOOK_SNAPSHOT, and a
value pattern resolves its attribute only when the pattern is tried, so
the first two message types decode while every other data bearing
message type raises an AttributeError when the second case fails on its
first alternative and evaluates the missing attribute. -/
def decode_message_data (mt : WebsocketMessageType) (rawData : PyValue) :
    Except String TypedValue :=
  match mt with
  | .aggregated_orderbook_update => from_raw_value aggregated_orderbook_schema rawData
  | .full_orderbook_update => from_raw_value websocket_full_orderbook_schema rawData
  | _ => .error "AttributeError: FULL_ORDERBOOK_SNAPSHOT"

/-- Model of the static method message_handler of
ValrWebsocketConnector: read the type tag (a missing or null tag is an
error, an unknown tag is an error), return nothing for a message type
without payload, then require a data field (missing or null is an
error) and decode it, wrapping the result in a ParsedMessage. -/
def message_handler (message : List (String × PyValue)) :
    Except String (Option ParsedMessage) :=
  match dict_get message "type" with
  | .none => .error "ValueError: message has no type"
  | .str s =>
      match parse_wmt s with
      | Option.none => .error "ValueError: not a valid WebsocketMessageType"
      | some mt =>
          if !has_data mt then .ok Option.none
          else
            match dict_get message "data" with
            | .none => .error "ValueError: no data in the message"
            | rawData =>
                match decode_message_data mt rawData with
                | .ok data => .ok (some { type := mt, data := data })
                | .error e => .error e
  | _ => .error "ValueError: not a valid WebsocketMessageType"

/-! ## The pipeline receive step and the connector registry -/

/-- Result of one receive step of a pipeline: the consumer queue after
the step, and the exception propagated by the step when there is one. -/
structure PipelineStep where
  queue : List ParsedMessage
  error : Option String

/-- Model of the method WebsocketPipeline.on_message of
valrpy.websocket_connector for the account and trade pipelines, whose
formatter is message_handler. The byte and text layers that the source
feeds through json.loads are outside the model: the step receives the
parsed value. The None case models the None frame delivered by the
transport, which the source ignores before parsing; any other non dict
value raises; a formatter exception is logged and re-raised, leaving
the queue untouched; a None result of the formatter is dropped; any
other result is appended to the queue. -/
def on_message (q : List ParsedMessage) (message : PyValue) : PipelineStep :=
  match message with
  | .none => { queue := q, error := Option.none }
  | .dict entries =>
      match message_handler entries with
      | .error e => { queue := q, error := some e }
      | .ok Option.none => { queue := q, error := Option.none }
      | .ok (some p) => { queue := q ++ [p], error := Option.none }
  | _ => { queue := q, error := some "TypeError: message should be of type dict" }

/-- The two websocket channels of valrpy.enums WebsocketType. -/
inductive WebsocketType where
  | account
  | trade
deriving DecidableEq

/-- Model of a started WebsocketPipeline, reduced to the construction
data that the registry stores. -/
structure PipelineHandle where
  opening_messages : List (List (String × PyValue))

/-- Registry state of a ValrWebsocketConnector: the channel keyed
pipeline map together with a count of the connections opened so far,
incremented whenever a pipeline is constructed and started. -/
structure ConnectorState where
  pipelines : List (WebsocketType × PipelineHandle)
  connections_opened : Nat

/-- Model of the private method create_and_start_websocket_pipeline of
ValrWebsocketConnector, the body guarded by the pipeline lock: when the
channel already has a pipeline a ValueError is raised and nothing else
happens; otherwise a pipeline is constructed and started (opening one
connection) and registered under its channel. -/
def create_and_start_websocket_pipeline (st : ConnectorState)
    (ws : WebsocketType) (opening : List (List (String × PyValue))) :
    ConnectorState × Option String :=
  if st.pipelines.any (fun p => p.1 == ws) then
    (st, some "ValueError: already have a pipeline for this websocket type")
  else
    ({ pipelines := st.pipelines ++ [(ws, { opening_messages := opening })],
       connections_opened := st.connections_opened + 1 },
     Option.none)

/-- Model of the method subscribe_to_account of ValrWebsocketConnector:
create and start the account pipeline with no opening message. -/
def subscribe_to_account (st : ConnectorState) : ConnectorState × Option String :=
  create_and_start_websocket_pipeline st .account []

/-! ## The signer

SHA-512 and HMAC are defined from the FIPS 180-4 standard over byte
lists, with 64 bit words as naturals reduced modulo two to the 64. The
embedded request_signature then follows valrpy.utils: the payload is
the timestamp, the upper cased method, the path and the body
concatenated, with the subaccount id appended verbatim when present,
and the signature is the hex encoded HMAC SHA-512 of that payload keyed
by the api secret. The body is taken as an already serialized string,
the form exercised by the pinned test vector; every string involved is
ASCII, so utf-8 encoding is the code point map. -/

/-- Two to the 64, the word modulus. -/
def u64_mod : Nat := 18446744073709551616

/-- Addition of 64 bit words. -/
def add64 (a b : Nat) : Nat := (a + b) % u64_mod

/-- Right rotation of a 64 bit word. -/
def rotr64 (n x : Nat) : Nat := ((x >>> n) ||| (x <<< (64 - n))) % u64_mod

/-- Bitwise complement of a 64 bit word. -/
def not64 (x : Nat) : Nat := x ^^^ (u64_mod - 1)

/-- Large sigma zero of SHA-512. -/
def big_sigma0 (x : Nat) : Nat := rotr64 28 x ^^^ rotr64 34 x ^^^ rotr64 39 x

/-- Large sigma one of SHA-512. -/
def big_sigma1 (x : Nat) : Nat := rotr64 14 x ^^^ rotr64 18 x ^^^ rotr64 41 x

/-- Small sigma zero of SHA-512. -/
def small_sigma0 (x : Nat) : Nat := rotr64 1 x ^^^ rotr64 8 x ^^^ (x >>> 7)

/-- Small sigma one of SHA-512. -/
def small_sigma1 (x : Nat) : Nat := rotr64 19 x ^^^ rotr64 61 x ^^^ (x >>> 6)

/-- Choice function of SHA-512. -/
def ch64 (x y z : Nat) : Nat := (x &&& y) ^^^ (not64 x &&& z)

/-- Majority function of SHA-512. -/
def maj64 (x y z : Nat) : Nat := (x &&& y) ^^^ (x &&& z) ^^^ (y &&& z)

/-- The eighty round constants of SHA-512. -/
def sha512_k : List Nat :=
  [4794697086780616226, 8158064640168781261, 13096744586834688815,
   16840607885511220156, 4131703408338449720, 6480981068601479193,
   10538285296894168987, 12329834152419229976, 15566598209576043074,
   1334009975649890238, 2608012711638119052, 6128411473006802146,
   8268148722764581231, 9286055187155687089, 11230858885718282805,
   13951009754708518548, 16472876342353939154, 17275323862435702243,
   1135362057144423861, 2597628984639134821, 3308224258029322869,
   5365058923640841347, 6679025012923562964, 8573033837759648693,
   10970295158949994411, 12119686244451234320, 12683024718118986047,
   13788192230050041572, 14330467153632333762, 15395433587784984357,
   489312712824947311, 1452737877330783856, 2861767655752347644,
   3322285676063803686, 5560940570517711597, 5996557281743188959,
   7280758554555802590, 8532644243296465576, 9350256976987008742,
   10552545826968843579, 11727347734174303076, 12113106623233404929,
   14000437183269869457, 14369950271660146224, 15101387698204529176,
   15463397548674623760, 17586052441742319658, 1182934255886127544,
   1847814050463011016, 2177327727835720531, 2830643537854262169,
   3796741975233480872, 4115178125766777443, 5681478168544905931,
   6601373596472566643, 7507060721942968483, 8399075790359081724,
   8693463985226723168, 9568029438360202098, 10144078919501101548,
   10430055236837252648, 11840083180663258601, 13761210420658862357,
   14299343276471374635, 14566680578165727644, 15097957966210449927,
   16922976911328602910, 17689382322260857208, 500013540394364858,
   748580250866718886, 1242879168328830382, 1977374033974150939,
   2944078676154940804, 3659926193048069267, 4368137639120453308,
   4836135668995329356, 5532061633213252278, 6448918945643986474,
   6902733635092675308, 7801388544844847127]

/-- The initial hash value of SHA-512. -/
def sha512_h0 : List Nat :=
  [7640891576956012808, 13503953896175478587, 4354685564936845355,
   11912009170470909681, 5840696475078001361, 11170449401992604703,
   2270897969802886507, 6620516959819538809]

/-- Big endian byte expansion of a value over a fixed width. -/
def be_bytes (width value : Nat) : List Nat :=
  (List.range width).map (fun i => (value >>> (8 * (width - 1 - i))) % 256)

/-- SHA-512 message padding: a one bit, zeros up to one hundred twelve
bytes modulo one hundred twenty eight, then the bit length over sixteen
bytes. -/
def sha512_pad (msg : List Nat) : List Nat :=
  let l := msg.length
  let k := (112 + 128 - ((l + 1) % 128)) % 128
  msg ++ [128] ++ List.replicate k 0 ++ be_bytes 16 (8 * l)

/-- Fueled splitting loop for blocks; the fuel is the length of the
list, which the loop never exceeds because every step consumes at least
one byte. -/
def chunks128_go : Nat → List Nat → List (List Nat)
  | 0, _ => []
  | _ + 1, [] => []
  | fuel + 1, b :: rest => (b :: rest).take 128 :: chunks128_go fuel ((b :: rest).drop 128)

/-- Split a byte list into blocks of one hundred twenty eight bytes. -/
def chunks128 (bs : List Nat) : List (List Nat) := chunks128_go bs.length bs

/-- The sixteen message words of one block, big endian. -/
def words_of_block (block : List Nat) : List Nat :=
  (List.range 16).map (fun i =>
    ((block.drop (8 * i)).take 8).foldl (fun a b => 256 * a + b) 0)

/-- Message schedule extension: push the next scheduled word the given
number of times. -/
def extend_w (w : Array Nat) : Nat → Array Nat
  | 0 => w
  | n + 1 =>
      let t := w.size
      let next := add64 (add64 (small_sigma1 (w.getD (t - 2) 0)) (w.getD (t - 7) 0))
        (add64 (small_sigma0 (w.getD (t - 15) 0)) (w.getD (t - 16) 0))
      extend_w (w.push next) n

/-- The eighty scheduled words of one block. -/
def sha512_w (block : List Nat) : List Nat :=
  (extend_w (Array.mk (words_of_block block)) 64).toList

/-- One round of the SHA-512 compression function on the eight word
working state. -/
def sha512_round (state : List Nat) (kw : Nat × Nat) : List Nat :=
  match state with
  | [a, b, c, d, e, f, g, h] =>
      let t1 := add64 h (add64 (big_sigma1 e) (add64 (ch64 e f g) (add64 kw.1 kw.2)))
      let t2 := add64 (big_sigma0 a) (maj64 a b c)
      [add64 t1 t2, a, b, c, add64 d t1, e, f, g]
  | s => s

/-- The SHA-512 compression function of one block. -/
def sha512_compress (h : List Nat) (block : List Nat) : List Nat :=
  let s := (sha512_k.zip (sha512_w block)).foldl sha512_round h
  (h.zip s).map (fun p => add64 p.1 p.2)

/-- SHA-512 of a byte list, as the digest byte list. -/
def sha512 (msg : List Nat) : List Nat :=
  let hh := (chunks128 (sha512_pad msg)).foldl sha512_compress sha512_h0
  hh.foldr (fun w acc => be_bytes 8 w ++ acc) []

/-- HMAC with SHA-512: a long key is hashed, the key is zero padded to
the block size, and the digest is the outer hash of the inner hash. -/
def hmac_sha512 (key msg : List Nat) : List Nat :=
  let key := if 128 < key.length then sha512 key else key
  let key := key ++ List.replicate (128 - key.length) 0
  let inner := key.map (fun b => b ^^^ 54)
  let outer := key.map (fun b => b ^^^ 92)
  sha512 (outer ++ sha512 (inner ++ msg))

/-- Lower case hex character of a value below sixteen. -/
def hex_char (n : Nat) : Char :=
  if n < 10 then Char.ofNat (48 + n) else Char.ofNat (87 + n)

/-- Lower case hex encoding of a byte list, the hexdigest of the
source. -/
def hex_of_bytes (bs : List Nat) : String :=
  String.mk (bs.foldr (fun b acc => hex_char (b / 16) :: hex_char (b % 16) :: acc) [])

/-- Byte encoding of an ASCII string, the utf-8 encoding restricted to
the strings of this development. -/
def ascii_bytes (s : String) : List Nat := s.data.map Char.toNat

/-- Model of the function request_signature of valrpy.utils on a string
body: the canonical payload is the timestamp, the upper cased method,
the path and the body concatenated, with the subaccount id appended
verbatim when present, and the result is the hex encoded HMAC SHA-512
of the payload keyed with the api secret. -/
def request_signature (api_secret method path body : String) (timestamp : Int)
    (subaccount_id : Option String) : String :=
  let payload := toString timestamp ++ py_upper method ++ path ++ body
  let payload :=
    match subaccount_id with
    | some sid => payload ++ sid
    | Option.none => payload
  hex_of_bytes (hmac_sha512 (ascii_bytes api_secret) (ascii_bytes payload))

/-- Model of the function parse_to_bool of valrpy.utils: a bool passes
through, a string maps to the comparison of its lower case form with
the word true, None passes through, and any other value raises. -/
def parse_to_bool (raw : PyValue) : Except String (Option Bool) :=
  match raw with
  | .bool b => .ok (some b)
  | .str s => .ok (some (py_lower s == "true"))
  | .none => .ok Option.none
  | _ => .error "TypeError: cannot parse to bool"

/-! ## Character facts -/

/-- The upper case predicate in terms of the code point. -/
theorem char_isUpper_iff (c : Char) : c.isUpper = true ↔ 65 ≤ c.toNat ∧ c.toNat ≤ 90 := by
  simp only [Char.isUpper, Bool.and_eq_true, decide_eq_true_eq, UInt32.le_def, BitVec.le_def,
    Char.toNat, UInt32.toNat]
  have h65 : (UInt32.toBitVec 65).toNat = 65 := rfl
  have h90 : (UInt32.toBitVec 90).toNat = 90 := rfl
  rw [h65, h90]

/-- The lower case predicate in terms of the code point. -/
theorem char_isLower_iff (c : Char) : c.isLower = true ↔ 97 ≤ c.toNat ∧ c.toNat ≤ 122 := by
  simp only [Char.isLower, Bool.and_eq_true, decide_eq_true_eq, UInt32.le_def, BitVec.le_def,
    Char.toNat, UInt32.toNat]
  have h97 : (UInt32.toBitVec 97).toNat = 97 := rfl
  have h122 : (UInt32.toBitVec 122).toNat = 122 := rfl
  rw [h97, h122]

/-- Code point of a character built from a small code point. -/
theorem char_toNat_ofNat (n : Nat) (h : n < 55296) : (Char.ofNat n).toNat = n := by
  have hv : n.isValidChar := Or.inl h
  simp only [Char.ofNat, hv, dite_true, Char.ofNatAux, Char.toNat, UInt32.toNat]
  simp [BitVec.toNat_ofNatLt]

/-- Lowering an upper case character yields a lower case, non upper
character. -/
theorem char_toLower_of_isUpper (c : Char) (h : c.isUpper = true) :
    (c.toLower).isLower = true ∧ (c.toLower).isUpper = false := by
  have hn := (char_isUpper_iff c).mp h
  have hcond : c.toNat ≥ 65 ∧ c.toNat ≤ 90 := ⟨hn.1, hn.2⟩
  have hlow : c.toLower = Char.ofNat (c.toNat + 32) := by
    simp only [Char.toLower, if_pos hcond]
  have ht : (Char.ofNat (c.toNat + 32)).toNat = c.toNat + 32 :=
    char_toNat_ofNat _ (by omega)
  constructor
  · rw [hlow, char_isLower_iff, ht]
    omega
  · rw [hlow]
    by_contra hc
    rw [Bool.not_eq_false, char_isUpper_iff, ht] at hc
    omega

/-- An upper case character is alphabetic, as a Boolean identity. -/
theorem char_isUpper_isAlpha (c : Char) (h : c.isUpper = true) : c.isAlpha = true := by
  simp [Char.isAlpha, h]

/-! ## Key normalization lemmas -/

/-- Upper case and lower case are disjoint. -/
theorem char_not_upper_and_lower (c : Char) : ¬(c.isUpper = true ∧ c.isLower = true) := by
  rintro ⟨h1, h2⟩
  have hu := (char_isUpper_iff c).mp h1
  have hl := (char_isLower_iff c).mp h2
  omega

/-- No character of the expansion loop output is upper case
alphabetic. -/
theorem snake_expand_no_upper (cs : List Char) :
    ∀ c ∈ snake_expand cs, (c.isAlpha && c.isUpper) = false := by
  induction cs with
  | nil => intro c hc; cases hc
  | cons a rest ih =>
      intro c hc
      by_cases ha : (a.isAlpha && a.isUpper) = true
      · rw [snake_expand, if_pos ha] at hc
        simp only [List.mem_cons] at hc
        rcases hc with hc | hc | hc
        · subst hc; decide
        · subst hc
          have hu : a.isUpper = true := ((Bool.and_eq_true ..).mp ha).2
          have hnu := (char_toLower_of_isUpper a hu).2
          simp [hnu]
        · exact ih c hc
      · rw [snake_expand, if_neg ha] at hc
        simp only [List.mem_cons] at hc
        rcases hc with hc | hc
        · subst hc
          simpa using ha
        · exact ih c hc

/-- Every character of a replacement output comes from the input or
from the replacement string. -/
theorem replace_all_go_mem (pat repl : List Char) :
    ∀ (fuel : Nat) (s : List Char) (c : Char),
      c ∈ replace_all_go pat repl fuel s → c ∈ s ∨ c ∈ repl := by
  intro fuel
  induction fuel with
  | zero => intro s c hc; exact Or.inl hc
  | succ fuel ih =>
      intro s c hc
      match s with
      | [] => cases hc
      | a :: rest =>
          rw [replace_all_go] at hc
          by_cases hp : pat.isPrefixOf (a :: rest) = true
          · rw [if_pos hp] at hc
            rcases List.mem_append.mp hc with hc | hc
            · exact Or.inr hc
            · rcases ih _ c hc with hc | hc
              · exact Or.inl (List.mem_cons_of_mem a (List.mem_of_mem_drop hc))
              · exact Or.inr hc
          · rw [if_neg hp] at hc
            simp only [List.mem_cons] at hc
            rcases hc with hc | hc
            · subst hc
              exact Or.inl (List.mem_cons_self ..)
            · rcases ih _ c hc with hc | hc
              · exact Or.inl (List.mem_cons_of_mem a hc)
              · exact Or.inr hc

/-- A scan for a pattern whose head character does not occur in the
input leaves the input unchanged. -/
theorem replace_all_go_id (p : Char) (pat repl : List Char) :
    ∀ (fuel : Nat) (s : List Char), (p ∉ s) →
      replace_all_go (p :: pat) repl fuel s = s := by
  intro fuel
  induction fuel with
  | zero => intro s _; rfl
  | succ fuel ih =>
      intro s hs
      match s with
      | [] => rfl
      | a :: rest =>
          have hne : (p == a) = false := by
            have : p ≠ a := fun h => hs (h ▸ List.mem_cons_self ..)
            simpa using this
          have hp : ((p :: pat).isPrefixOf (a :: rest)) = false := by
            simp [List.isPrefixOf, hne]
          rw [replace_all_go, if_neg (by simp [hp])]
          have : p ∉ rest := fun h => hs (List.mem_cons_of_mem a h)
          rw [ih rest this]

/-- The expansion loop is the identity on a list without alphabetic
characters. -/
theorem snake_expand_id (cs : List Char) (h : ∀ c ∈ cs, c.isAlpha = false) :
    snake_expand cs = cs := by
  induction cs with
  | nil => rfl
  | cons a rest ih =>
      have ha : (a.isAlpha && a.isUpper) = false := by
        rw [h a (List.mem_cons_self ..)]
        rfl
      rw [snake_expand, if_neg (by simp [ha])]
      rw [ih (fun c hc => h c (List.mem_cons_of_mem a hc))]

/-- Dropping a prefix twice is the same as dropping it once. -/
theorem dropWhile_idem (p : Char → Bool) (l : List Char) :
    (l.dropWhile p).dropWhile p = l.dropWhile p := by
  induction l with
  | nil => rfl
  | cons a rest ih =>
      by_cases hp : p a = true
      · rw [List.dropWhile_cons_of_pos hp, ih]
      · rw [List.dropWhile_cons_of_neg (by simpa using hp),
          List.dropWhile_cons_of_neg (by simpa using hp)]

/-- Rebuilding a string from its character list is the identity. -/
theorem string_mk_data : ∀ s : String, String.mk s.data = s
  | ⟨_⟩ => rfl

/-- Membership transfer out of dropWhile. -/
theorem mem_of_mem_dropWhile (p : Char → Bool) (l : List Char) (c : Char)
    (h : c ∈ l.dropWhile p) : c ∈ l := by
  induction l with
  | nil => cases h
  | cons a rest ih =>
      by_cases hp : p a = true
      · rw [List.dropWhile_cons_of_pos hp] at h
        exact List.mem_cons_of_mem a (ih h)
      · rw [List.dropWhile_cons_of_neg (by simpa using hp)] at h
        exact h

/-- A lower case key is returned unchanged by the normalization. -/
theorem convert_islower (s : String) (h : py_islower s.data = true) :
    convert_to_snake_case s = s := by
  rw [convert_to_snake_case, if_pos h]

/-- The else branch of the normalization, with the lets unfolded. -/
theorem convert_else (s : String) (h : ¬py_islower s.data = true) :
    convert_to_snake_case s = String.mk
      ((replace_all "sub_account".data "subaccount".data
        (snake_expand s.data)).dropWhile (fun c => c == '_')) := by
  rw [convert_to_snake_case, if_neg h]

/-- No character of a normalized key is upper case alphabetic. -/
theorem convert_no_upper (s : String) :
    ∀ c ∈ (convert_to_snake_case s).data, (c.isAlpha && c.isUpper) = false := by
  intro c hc
  by_cases h : py_islower s.data = true
  · rw [convert_islower s h] at hc
    have hall := ((Bool.and_eq_true ..).mp h).2
    have hcond := List.all_eq_true.mp hall c hc
    cases hu : c.isUpper with
    | false => simp [hu]
    | true =>
        exfalso
        have hl : c.isLower = true := by
          simp only [is_cased, hu, Bool.true_or, Bool.not_true, Bool.false_or] at hcond
          exact hcond
        exact char_not_upper_and_lower c ⟨hu, hl⟩
  · rw [convert_else s h] at hc
    have hc2 := mem_of_mem_dropWhile _ _ _ hc
    rw [replace_all] at hc2
    rcases replace_all_go_mem _ _ _ _ _ hc2 with h2 | h2
    · exact snake_expand_no_upper s.data c h2
    · have hsub : ∀ d ∈ "subaccount".data, (d.isAlpha && d.isUpper) = false := by decide
      exact hsub c h2

/-- The key normalization of valrpy.messages.core is idempotent. -/
theorem convert_idem (s : String) :
    convert_to_snake_case (convert_to_snake_case s) = convert_to_snake_case s := by
  by_cases h : py_islower s.data = true
  · rw [convert_islower s h]
    exact convert_islower s h
  · set o := convert_to_snake_case s with ho
    have h_no_upper : ∀ c ∈ o.data, (c.isAlpha && c.isUpper) = false := convert_no_upper s
    by_cases h2 : py_islower o.data = true
    · exact convert_islower o h2
    · have h_upper_false : ∀ c ∈ o.data, c.isUpper = false := by
        intro c hc
        by_contra hup
        rw [Bool.not_eq_false] at hup
        have hcontra := h_no_upper c hc
        rw [char_isUpper_isAlpha c hup, hup] at hcontra
        cases hcontra
      have h_no_alpha : ∀ c ∈ o.data, c.isAlpha = false := by
        intro c hc
        by_contra hal
        rw [Bool.not_eq_false] at hal
        have hlow : c.isLower = true := by
          have hu := h_upper_false c hc
          simpa [Char.isAlpha, hu] using hal
        apply h2
        rw [py_islower, Bool.and_eq_true]
        constructor
        · rw [List.any_eq_true]
          exact ⟨c, hc, by simp [is_cased, hlow]⟩
        · rw [List.all_eq_true]
          intro d hd
          have hu := h_upper_false d hd
          simp [is_cased, hu]
      rw [convert_else o h2]
      rw [snake_expand_id o.data h_no_alpha]
      have hs_not : 's' ∉ o.data := by
        intro hmem
        have := h_no_alpha 's' hmem
        simp at this
      have hpat : ("sub_account".data) = 's' :: "ub_account".data := rfl
      rw [replace_all, hpat, replace_all_go_id 's' _ _ _ o.data hs_not]
      have hdrop : o.data.dropWhile (fun c => c == '_') = o.data := by
        rw [ho, convert_else s h]
        exact dropWhile_idem _ _
      rw [hdrop, string_mk_data]

mutual

/-- Normalizing a value twice is the same as normalizing it once. -/
theorem snake_val_idem : (v : PyValue) → snake_val (snake_val v) = snake_val v
  | .none => rfl
  | .bool _ => rfl
  | .int _ => rfl
  | .float _ => rfl
  | .str _ => rfl
  | .list _ => rfl
  | .dict entries => by
      rw [snake_val, snake_val]
      rw [apply_idem entries]
termination_by structural v => v

/-- Normalizing a payload twice is the same as normalizing it once. -/
theorem apply_idem : (entries : List (String × PyValue)) →
    apply_snake_case (apply_snake_case entries) = apply_snake_case entries
  | [] => rfl
  | (k, v) :: rest => by
      rw [apply_snake_case, apply_snake_case]
      rw [convert_idem k, snake_val_idem v, apply_idem rest]
termination_by structural entries => entries

end

/-! ## C10 -/

/-- C10: counterexample. The claim asserts that any key whose cased
characters are all lower case is returned unchanged by
convert_to_snake_case. The key written underscore one has no cased
character, so vacuously every cased character of it is lower case, yet
the normalization strips the leading underscore and returns the bare
digit. -/
theorem c10_counterexample :
    convert_to_snake_case "_1" = "1" ∧ ("_1" : String) ≠ "1" ∧
    ("_1".data.all (fun c => !is_cased c || c.isLower)) = true :=
  ⟨rfl, by decide, by decide⟩

/-- C10 (amended): key normalization is idempotent for every key, a key
with at least one cased character and every cased character lower case
is returned unchanged, and normalizing a payload twice with
apply_snake_case equals normalizing it once; a key with no cased
character may however change, because its leading underscores are
stripped. -/
theorem c10_amended :
    (∀ s : String,
      convert_to_snake_case (convert_to_snake_case s) = convert_to_snake_case s) ∧
    (∀ s : String, py_islower s.data = true → convert_to_snake_case s = s) ∧
    (∀ entries : List (String × PyValue),
      apply_snake_case (apply_snake_case entries) = apply_snake_case entries) :=
  ⟨convert_idem, convert_islower, apply_idem⟩

/-- C10: witness for the amended theorem at concrete keys. -/
theorem c10_witness :
    convert_to_snake_case "already_snake" = "already_snake" ∧
    convert_to_snake_case (convert_to_snake_case "currencyPair") =
      convert_to_snake_case "currencyPair" :=
  ⟨c10_amended.2.1 "already_snake" (by decide), c10_amended.1 "currencyPair"⟩

/-! ## Coercion engine lemmas -/

/-- A value recognized as None is the None value. -/
theorem eq_none_of_is_none (v : PyValue) (h : is_none v = true) : v = .none := by
  cases v <;> simp [is_none] at h ⊢

/-- The nested record branch of the engine agrees with the standalone
from_raw. -/
theorem from_raw_spec (schema : List (String × DesiredType))
    (entries : List (String × PyValue)) :
    parse_to_desired_type (.dict entries) (.element schema) = from_raw schema entries := rfl

/-- A None object under a contract that is not optional is rejected. -/
theorem parse_none_required (v : PyValue) (t : DesiredType)
    (h1 : is_none v = true) (h2 : is_optional_head t = false) :
    parse_to_desired_type v t = .error "TypeError: param does not accept None" := by
  have hv : v = .none := eq_none_of_is_none v h1
  subst hv
  cases t <;> first
    | rfl
    | (exfalso; simp [is_optional_head] at h2)

/-- A None object under an optional contract parses to null. -/
theorem parse_none_optional (t : DesiredType) :
    parse_to_desired_type .none (.optional t) = .ok .null := rfl

/-- A successful field loop run parses every declared field. -/
theorem parse_fields_ok_mem :
    ∀ (schema : List (String × DesiredType)) (raw : List (String × PyValue))
      (fields : List (String × TypedValue)),
      parse_fields raw schema = .ok fields →
      ∀ name t, (name, t) ∈ schema →
        ∃ v, parse_to_desired_type (dict_get raw name) t = .ok v := by
  intro schema
  induction schema with
  | nil =>
      intro raw fields _ name t hmem
      cases hmem
  | cons head rest ih =>
      intro raw fields hok name t hmem
      obtain ⟨hname, ht⟩ := head
      rw [parse_fields] at hok
      cases hhead : parse_to_desired_type (dict_get raw hname) ht with
      | error e =>
          rw [hhead] at hok
          simp [Bind.bind, Except.bind] at hok
      | ok v =>
          cases htail : parse_fields raw rest with
          | error e =>
              rw [hhead, htail] at hok
              simp [Bind.bind, Except.bind] at hok
          | ok tailf =>
              rcases List.mem_cons.mp hmem with hm | hm
              · injection hm with h1 h2
                subst h1
                subst h2
                exact ⟨v, hhead⟩
              · exact ih raw tailf htail name t hm

/-- A successful field loop run binds each declared field, looked up at
its first occurrence, to its parsed value. -/
theorem parse_fields_lookup :
    ∀ (schema : List (String × DesiredType)) (raw : List (String × PyValue))
      (fields : List (String × TypedValue)),
      parse_fields raw schema = .ok fields →
      ∀ name t, List.lookup name schema = some t →
        ∃ v, parse_to_desired_type (dict_get raw name) t = .ok v ∧
          List.lookup name fields = some v := by
  intro schema
  induction schema with
  | nil =>
      intro raw fields _ name t hlook
      simp [List.lookup] at hlook
  | cons head rest ih =>
      intro raw fields hok name t hlook
      obtain ⟨hname, ht⟩ := head
      rw [parse_fields] at hok
      cases hhead : parse_to_desired_type (dict_get raw hname) ht with
      | error e =>
          rw [hhead] at hok
          simp [Bind.bind, Except.bind] at hok
      | ok v =>
          cases htail : parse_fields raw rest with
          | error e =>
              rw [hhead, htail] at hok
              simp [Bind.bind, Except.bind] at hok
          | ok tailf =>
              rw [hhead, htail] at hok
              simp only [Bind.bind, Except.bind, pure, Except.pure] at hok
              cases hok
              rw [List.lookup] at hlook
              by_cases heq : (name == hname) = true
              · rw [heq] at hlook
                have hlook2 : some ht = some t := hlook
                injection hlook2 with h3
                subst h3
                refine ⟨v, ?_, ?_⟩
                · have hn : name = hname := by simpa using heq
                  rw [hn]
                  exact hhead
                · rw [List.lookup, heq]
              · have heqf : (name == hname) = false := by simpa using heq
                rw [heqf] at hlook
                have hlook2 : List.lookup name rest = some t := hlook
                obtain ⟨w, hw1, hw2⟩ := ih raw tailf htail name t hlook2
                refine ⟨w, hw1, ?_⟩
                rw [List.lookup, heqf]
                exact hw2

/-- An unexpected normalized key makes from_raw fail. -/
theorem from_raw_unexpected (schema : List (String × DesiredType))
    (raw : List (String × PyValue))
    (h : ((apply_snake_case raw).any
      (fun kv => !(schema.any (fun f => f.1 == kv.1)))) = true) :
    from_raw schema raw = .error "ValueError: from_raw received unexpected args" := by
  simp only [from_raw]
  rw [if_pos h]

/-- Decomposition of a successful from_raw run. -/
theorem from_raw_ok_inv (schema : List (String × DesiredType))
    (raw : List (String × PyValue)) (x : TypedValue)
    (hok : from_raw schema raw = .ok x) :
    ((apply_snake_case raw).any
      (fun kv => !(schema.any (fun f => f.1 == kv.1)))) = false ∧
    ∃ fields, parse_fields (apply_snake_case raw) schema = .ok fields ∧
      x = .record fields := by
  simp only [from_raw] at hok
  by_cases hc : ((apply_snake_case raw).any
      (fun kv => !(schema.any (fun f => f.1 == kv.1)))) = true
  · rw [if_pos hc] at hok
    simp at hok
  · rw [if_neg hc] at hok
    refine ⟨by simpa using hc, ?_⟩
    cases hpf : parse_fields (apply_snake_case raw) schema with
    | error e =>
        rw [hpf] at hok
        simp [Bind.bind, Except.bind] at hok
    | ok fields =>
        rw [hpf] at hok
        simp only [Bind.bind, Except.bind, pure, Except.pure] at hok
        cases hok
        exact ⟨fields, rfl, rfl⟩

/-! ## C3 -/

/-- C3: decoding enforces the declared field set. After key
normalization, a payload key that maps to no declared field is a decode
error; a missing or null value for a field whose contract is not
optional prevents any successful decode; a missing value for an
optional field binds the field to null in any successful decode, and in
isolation parses to null with no error. -/
theorem c3_field_contract (schema : List (String × DesiredType))
    (raw : List (String × PyValue)) :
    (((apply_snake_case raw).any
        (fun kv => !(schema.any (fun f => f.1 == kv.1)))) = true →
      from_raw schema raw = .error "ValueError: from_raw received unexpected args") ∧
    (∀ name t, (name, t) ∈ schema → is_optional_head t = false →
      is_none (dict_get (apply_snake_case raw) name) = true →
      ∃ e, from_raw schema raw = .error e) ∧
    (∀ name t, List.lookup name schema = some (.optional t) →
      is_none (dict_get (apply_snake_case raw) name) = true →
      ∀ fields, from_raw schema raw = .ok (.record fields) →
        List.lookup name fields = some .null) ∧
    (∀ t, parse_to_desired_type .none (.optional t) = .ok .null) := by
  refine ⟨from_raw_unexpected schema raw, ?_, ?_, parse_none_optional⟩
  · intro name t hmem hopt hnone
    cases hr : from_raw schema raw with
    | error e => exact ⟨e, rfl⟩
    | ok x =>
        exfalso
        obtain ⟨_, fields, hpf, _⟩ := from_raw_ok_inv schema raw x hr
        obtain ⟨v, hv⟩ := parse_fields_ok_mem schema _ fields hpf name t hmem
        rw [parse_none_required _ t hnone hopt] at hv
        cases hv
  · intro name t hlook hnone fields hr
    obtain ⟨_, fields2, hpf, hx⟩ := from_raw_ok_inv schema raw _ hr
    have hfe : fields2 = fields := by
      injection hx with h1
      exact h1.symm
    subst hfe
    obtain ⟨v, hv1, hv2⟩ := parse_fields_lookup schema _ fields2 hpf name (.optional t) hlook
    rw [eq_none_of_is_none _ hnone, parse_none_optional] at hv1
    cases hv1
    exact hv2

/-- C3: witness, the theorem applied at a concrete schema and concrete
payloads exercising the three behaviours. -/
theorem c3_witness :
    from_raw [("a", .int), ("b", .optional .str)] [("c", .int 1)] =
      .error "ValueError: from_raw received unexpected args" ∧
    (∃ e, from_raw [("a", .int), ("b", .optional .str)] [("b", .str "x")] = .error e) ∧
    List.lookup "b" [("a", TypedValue.int 5), ("b", TypedValue.null)] = some .null :=
  ⟨(c3_field_contract [("a", .int), ("b", .optional .str)] [("c", .int 1)]).1 rfl,
   (c3_field_contract [("a", .int), ("b", .optional .str)] [("b", .str "x")]).2.1
     "a" .int (List.Mem.head _) rfl rfl,
   (c3_field_contract [("a", .int), ("b", .optional .str)] [("a", .int 5)]).2.2.1
     "b" .str rfl rfl [("a", TypedValue.int 5), ("b", TypedValue.null)] rfl⟩

/-! ## C6 -/

/-- C6: evaluation of the union coercion at its failing input. A string
input is kept as the string, as the claim states; but a map input never
coerces into the nested record: the engine reaches the issubclass test
with the PEP 604 union object, which is not a class, so the coercion
raises a TypeError. The declared field base_currency of CurrencyPairInfo
carries exactly this union contract, and a full CurrencyPairInfo payload
whose base currency is a nested map therefore fails to decode, while the
same payload with a bare string decodes. -/
theorem c6_union_branch :
    parse_to_desired_type (.str "BTC")
      (.union2 .str (.element currency_info_schema)) = .ok (.str "BTC") ∧
    parse_to_desired_type (.dict [("symbol", .str "BTC")])
      (.union2 .str (.element currency_info_schema)) =
      .error "TypeError: issubclass arg 1 must be a class" ∧
    List.lookup "base_currency" currency_pair_info_schema =
      some (.union2 .str (.element currency_info_schema)) ∧
    from_raw currency_pair_info_schema
      [("symbol", .str "BTCZAR"),
       ("baseCurrency", .dict [("symbol", .str "BTC")])] =
      .error "TypeError: issubclass arg 1 must be a class" ∧
    (∃ r, from_raw currency_pair_info_schema
      [("id", .int 1), ("symbol", .str "BTCZAR"),
       ("baseCurrency", .str "BTC"),
       ("quoteCurrency", .str "ZAR"), ("shortName", .str "BTCZAR"),
       ("exchange", .str "VALR"), ("active", .bool true),
       ("tickSize", .str "0.01"), ("baseDecimalPlaces", .int 8),
       ("marginTradingAllowed", .bool false), ("minBaseAmount", .str "0.0001"),
       ("maxBaseAmount", .str "2"), ("minQuoteAmount", .str "10"),
       ("maxQuoteAmount", .str "100000")] = .ok r) := by
  refine ⟨rfl, rfl, rfl, rfl, ⟨_, rfl⟩⟩

/-! ## C7 -/

/-- C7: counterexample. The claim asserts that a string that is neither
true nor false case-insensitively is a decode error; the code instead
coerces every such string to the boolean false, both in the coercion
engine and in parse_to_bool of valrpy.utils. -/
theorem c7_counterexample :
    parse_to_desired_type (.str "yes") .bool = .ok (.bool false) ∧
    parse_to_bool (.str "yes") = .ok (some false) ∧
    py_lower "yes" ≠ "true" ∧ py_lower "yes" ≠ "false" :=
  ⟨rfl, rfl, by decide, by decide⟩

/-- C7 (amended): a native boolean passes through unchanged; a string
input coerces without error to the comparison of its lower case form
with the word true, so the strings spelling true case-insensitively
give true and every other string gives false; an input that is neither
a boolean nor a string is an error in the coercion engine, while
parse_to_bool of valrpy.utils additionally passes None through and
errors on the remaining shapes. -/
theorem c7_amended :
    (∀ b, parse_to_desired_type (.bool b) .bool = .ok (.bool b)) ∧
    (∀ s, parse_to_desired_type (.str s) .bool = .ok (.bool (py_lower s == "true"))) ∧
    (∀ v, is_none v = false → (∀ b, v ≠ .bool b) → (∀ s, v ≠ .str s) →
      ∃ e, parse_to_desired_type v .bool = .error e) ∧
    (∀ b, parse_to_bool (.bool b) = .ok (some b)) ∧
    (∀ s, parse_to_bool (.str s) = .ok (some (py_lower s == "true"))) ∧
    parse_to_bool .none = .ok Option.none ∧
    (∀ v, v ≠ .none → (∀ b, v ≠ .bool b) → (∀ s, v ≠ .str s) →
      ∃ e, parse_to_bool v = .error e) := by
  refine ⟨fun _ => rfl, fun _ => rfl, ?_, fun _ => rfl, fun _ => rfl, rfl, ?_⟩
  · intro v h1 h2 h3
    cases v with
    | none => simp [is_none] at h1
    | bool b => exact absurd rfl (h2 b)
    | str s => exact absurd rfl (h3 s)
    | int n => exact ⟨_, rfl⟩
    | float r => exact ⟨_, rfl⟩
    | list items => exact ⟨_, rfl⟩
    | dict entries => exact ⟨_, rfl⟩
  · intro v h1 h2 h3
    cases v with
    | none => exact absurd rfl h1
    | bool b => exact absurd rfl (h2 b)
    | str s => exact absurd rfl (h3 s)
    | int n => exact ⟨_, rfl⟩
    | float r => exact ⟨_, rfl⟩
    | list items => exact ⟨_, rfl⟩
    | dict entries => exact ⟨_, rfl⟩

/-- C7: witness for the amended theorem at concrete inputs. -/
theorem c7_witness :
    (∃ e, parse_to_desired_type (.list []) .bool = .error e) ∧
    (∃ e, parse_to_bool (.int 3) = .error e) :=
  ⟨c7_amended.2.2.1 (.list []) rfl
      (fun _ h => PyValue.noConfusion h) (fun _ h => PyValue.noConfusion h),
   c7_amended.2.2.2.2.2.2 (.int 3) (fun h => PyValue.noConfusion h)
      (fun _ h => PyValue.noConfusion h) (fun _ h => PyValue.noConfusion h)⟩

/-- Unfolded form of the enum branch of the engine. -/
theorem parse_enum_unfold (variants : List String) (s : String) :
    parse_to_desired_type (.str s) (.enum variants) =
      (if variants.contains s then .ok (.enum_val s)
       else if variants.contains (enum_normalize s) then
         .ok (.enum_val (enum_normalize s))
       else .error "ValueError: not a valid enum member") := rfl

/-! ## C8 -/

/-- C8: closed string enum coercion first tries an exact match of the
string against the declared values, then retries after normalizing with
upper casing and mapping hyphen and space to underscore; a string
matching under neither attempt is an error, a non string input is an
error, and the concrete inputs buy and BUY coerce to the same OrderSide
value while unknown-side is an error. -/
theorem c8_enum_coercion :
    (∀ (variants : List String) (s : String), variants.contains s = true →
      parse_to_desired_type (.str s) (.enum variants) = .ok (.enum_val s)) ∧
    (∀ (variants : List String) (s : String), variants.contains s = false →
      variants.contains (enum_normalize s) = true →
      parse_to_desired_type (.str s) (.enum variants) =
        .ok (.enum_val (enum_normalize s))) ∧
    (∀ (variants : List String) (s : String), variants.contains s = false →
      variants.contains (enum_normalize s) = false →
      parse_to_desired_type (.str s) (.enum variants) =
        .error "ValueError: not a valid enum member") ∧
    parse_to_desired_type (.str "buy") (.enum order_side_variants) =
      .ok (.enum_val "BUY") ∧
    parse_to_desired_type (.str "BUY") (.enum order_side_variants) =
      .ok (.enum_val "BUY") ∧
    parse_to_desired_type (.str "unknown-side") (.enum order_side_variants) =
      .error "ValueError: not a valid enum member" := by
  refine ⟨?_, ?_, ?_, rfl, rfl, rfl⟩
  · intro variants s h
    rw [parse_enum_unfold, if_pos h]
  · intro variants s h1 h2
    rw [parse_enum_unfold, if_neg (by rw [h1]; simp), if_pos h2]
  · intro variants s h1 h2
    rw [parse_enum_unfold, if_neg (by rw [h1]; simp), if_neg (by rw [h2]; simp)]

/-- C8: witness for the general clauses at concrete variant lists. -/
theorem c8_witness :
    parse_to_desired_type (.str "SELL") (.enum order_side_variants) =
      .ok (.enum_val "SELL") ∧
    parse_to_desired_type (.str "sell") (.enum order_side_variants) =
      .ok (.enum_val (enum_normalize "sell")) ∧
    parse_to_desired_type (.str "hold") (.enum order_side_variants) =
      .error "ValueError: not a valid enum member" :=
  ⟨c8_enum_coercion.1 order_side_variants "SELL" (by decide),
   c8_enum_coercion.2.1 order_side_variants "sell" (by decide) (by decide),
   c8_enum_coercion.2.2.1 order_side_variants "hold" (by decide) (by decide)⟩

/-! ## C9 -/

/-- C9: decimal coercion is exact. The numeric string of one ten
thousandth coerces to exactly the rational one over ten thousand, both
as a string input and as a float input taken through its string
representation; a float input always goes through its decimal string
representation; the decimal expansion of the binary double nearest to
one ten thousandth, the one quoted in the source comment, is the
rational with numerator 7378697629483821 and denominator two to the
sixty six, and the coerced value differs from it. -/
theorem c9_decimal_exact :
    parse_to_desired_type (.str "0.0001") .decimal = .ok (.decimal (1 / 10000)) ∧
    parse_to_desired_type (.float "0.0001") .decimal = .ok (.decimal (1 / 10000)) ∧
    (∀ (r : String) (q : ℚ), parse_decimal r = some q →
      parse_to_desired_type (.float r) .decimal = .ok (.decimal q)) ∧
    parse_decimal
      "0.000100000000000000004792173602385929598312941379845142364501953125" =
      some (7378697629483821 / ((2 ^ 66 : ℕ) : ℚ)) ∧
    (1 / 10000 : ℚ) ≠ 7378697629483821 / ((2 ^ 66 : ℕ) : ℚ) := by
  refine ⟨rfl, rfl, ?_,
    by decide, by decide⟩
  intro r q h
  simp [parse_to_desired_type, is_none, h]

/-- C9: witness for the float clause at a concrete representation. -/
theorem c9_witness :
    parse_to_desired_type (.float "0.1") .decimal = .ok (.decimal (1 / 10)) :=
  c9_decimal_exact.2.2.1 "0.1" (1 / 10) (by decide)

/-! ## C2 -/

/-- A type tag without payload makes the message handler return
nothing. -/
theorem message_handler_control (entries : List (String × PyValue)) (s : String)
    (mt : WebsocketMessageType)
    (h1 : dict_get entries "type" = .str s)
    (h2 : parse_wmt s = some mt)
    (h3 : has_data mt = false) :
    message_handler entries = .ok Option.none := by
  simp [message_handler, h1, h2, h3]

/-- C2: the only values ever appended to the consumer queue by a
receive step are successfully decoded data bearing messages. A frame
whose tag carries no payload leaves the queue unchanged with no error;
a frame on which the handler raises leaves the queue unchanged with the
error propagated; and in every case the queue is unchanged unless the
handler returned a decoded message, which is then the appended value. -/
theorem c2_queue_only_decoded (q : List ParsedMessage) (m : PyValue) :
    (∀ entries s mt, m = .dict entries → dict_get entries "type" = .str s →
      parse_wmt s = some mt → has_data mt = false →
      on_message q m = { queue := q, error := Option.none }) ∧
    (∀ entries e, m = .dict entries → message_handler entries = .error e →
      on_message q m = { queue := q, error := some e }) ∧
    ((on_message q m).queue = q ∨
      ∃ entries p, m = .dict entries ∧ message_handler entries = .ok (some p) ∧
        (on_message q m).queue = q ++ [p]) := by
  refine ⟨?_, ?_, ?_⟩
  · intro entries s mt hm h1 h2 h3
    subst hm
    simp [on_message, message_handler_control entries s mt h1 h2 h3]
  · intro entries e hm he
    subst hm
    simp [on_message, he]
  · cases m with
    | dict entries =>
        cases hh : message_handler entries with
        | error e =>
            left
            simp [on_message, hh]
        | ok o =>
            cases o with
            | none =>
                left
                simp [on_message, hh]
            | some p =>
                right
                exact ⟨entries, p, rfl, hh, by simp [on_message, hh]⟩
    | none => left; rfl
    | bool b => left; rfl
    | int n => left; rfl
    | float r => left; rfl
    | str s => left; rfl
    | list items => left; rfl

/-- C2: witness, a control frame and an erroring frame both leave the
queue unchanged. -/
theorem c2_witness :
    on_message [] (.dict [("type", .str "PING")]) =
      { queue := [], error := Option.none } ∧
    on_message [] (.dict []) =
      { queue := [], error := some "ValueError: message has no type" } :=
  ⟨(c2_queue_only_decoded [] (.dict [("type", .str "PING")])).1
      [("type", .str "PING")] "PING" .ping rfl rfl rfl rfl,
   (c2_queue_only_decoded [] (.dict [])).2.1 [] _ rfl rfl⟩

/-! ## C4 -/

/-- C4: a connector holds at most one pipeline per channel. Creating a
pipeline for a channel that already has one raises the ValueError and
returns the state unchanged, so no second connection is opened and the
registry is untouched; in particular a second subscribe_to_account
behaves this way. -/
theorem c4_single_pipeline :
    (∀ (st : ConnectorState) (ws : WebsocketType)
        (opening : List (List (String × PyValue))),
      st.pipelines.any (fun p => p.1 == ws) = true →
      create_and_start_websocket_pipeline st ws opening =
        (st, some "ValueError: already have a pipeline for this websocket type")) ∧
    (∀ st : ConnectorState,
      st.pipelines.any (fun p => p.1 == WebsocketType.account) = true →
      subscribe_to_account st =
        (st, some "ValueError: already have a pipeline for this websocket type")) := by
  constructor
  · intro st ws opening h
    rw [create_and_start_websocket_pipeline, if_pos h]
  · intro st h
    rw [subscribe_to_account, create_and_start_websocket_pipeline, if_pos h]

/-- C4: witness, subscribing to the account channel twice from the
empty state errors on the second call and leaves the state of the first
call unchanged. -/
theorem c4_witness :
    subscribe_to_account
      ((subscribe_to_account { pipelines := [], connections_opened := 0 }).1) =
      ((subscribe_to_account { pipelines := [], connections_opened := 0 }).1,
        some "ValueError: already have a pipeline for this websocket type") :=
  c4_single_pipeline.2
    ((subscribe_to_account { pipelines := [], connections_opened := 0 }).1) rfl

/-! ## C5 -/

/-- C5: counterexample. Probing yields the millisecond scale for the
epoch value 1558014486185 and the second scale for 1558014486, but the
results are not identical: the first keeps the 185 millisecond
fraction. -/
theorem c5_counterexample :
    timestamp_to_datetime 1558014486185 = .ok 1558014486185000 ∧
    timestamp_to_datetime 1558014486 = .ok 1558014486000000 ∧
    (1558014486185000 : Int) ≠ 1558014486000000 ∧
    parse_to_desired_type (.int 1558014486185) .datetime =
      .ok (.datetime 1558014486185000) ∧
    parse_to_desired_type (.int 1558014486) .datetime =
      .ok (.datetime 1558014486000000) :=
  ⟨rfl, rfl, by decide, rfl, rfl⟩

/-- C5 (amended): coercion probes the scales seconds, milliseconds,
microseconds, nanoseconds in that order and keeps the first in range
result, but only the year out of range ValueError is caught between
probes: an epoch whose whole seconds already overflow gmtime, such as
every nanosecond scale epoch of the modern era, raises an uncaught
OSError at the seconds probe instead of reaching its own scale. Both
concrete epochs land on the UTC date 2019-05-16, but the millisecond
epoch keeps its fractional 185 milliseconds, so the two results differ
by 185000 microseconds rather than being identical. -/
theorem c5_amended :
    timestamp_to_datetime 1558014486185 = .ok 1558014486185000 ∧
    timestamp_to_datetime 1558014486 = .ok 1558014486000000 ∧
    utc_date 1558014486185000 = (2019, 5, 16) ∧
    utc_date 1558014486000000 = (2019, 5, 16) ∧
    timestamp_to_datetime 1558014486185000000 =
      .error "OSError: Value too large for defined data type" ∧
    (∀ (t : ℚ) (d : Int), fromtimestamp_utc (t / 1) = .ok d →
      timestamp_to_datetime t = .ok d) ∧
    (∀ (t : ℚ) (d : Int), fromtimestamp_utc (t / 1) = .year_out_of_range →
      fromtimestamp_utc (t / 1000) = .ok d → timestamp_to_datetime t = .ok d) ∧
    (∀ (t : ℚ) (d : Int), fromtimestamp_utc (t / 1) = .year_out_of_range →
      fromtimestamp_utc (t / 1000) = .year_out_of_range →
      fromtimestamp_utc (t / 1000000) = .ok d → timestamp_to_datetime t = .ok d) ∧
    (∀ (t : ℚ) (d : Int), fromtimestamp_utc (t / 1) = .year_out_of_range →
      fromtimestamp_utc (t / 1000) = .year_out_of_range →
      fromtimestamp_utc (t / 1000000) = .year_out_of_range →
      fromtimestamp_utc (t / 1000000000) = .ok d →
      timestamp_to_datetime t = .ok d) ∧
    (∀ t : ℚ, fromtimestamp_utc (t / 1) = .year_out_of_range →
      fromtimestamp_utc (t / 1000) = .year_out_of_range →
      fromtimestamp_utc (t / 1000000) = .year_out_of_range →
      fromtimestamp_utc (t / 1000000000) = .year_out_of_range →
      timestamp_to_datetime t =
        .error "ValueError: cannot convert timestamp to datetime") ∧
    (∀ (t : ℚ) (msg : String), fromtimestamp_utc (t / 1) = .uncaught msg →
      timestamp_to_datetime t = .error msg) ∧
    (∀ (t : ℚ) (msg : String), fromtimestamp_utc (t / 1) = .year_out_of_range →
      fromtimestamp_utc (t / 1000) = .uncaught msg →
      timestamp_to_datetime t = .error msg) := by
  refine ⟨rfl, rfl, by decide, by decide, rfl, ?_, ?_, ?_, ?_, ?_, ?_, ?_⟩
  · intro t d h1
    rw [div_one] at h1
    simp [timestamp_to_datetime, timestamp_probe, h1]
  · intro t d h1 h2
    rw [div_one] at h1
    simp [timestamp_to_datetime, timestamp_probe, h1, h2]
  · intro t d h1 h2 h3
    rw [div_one] at h1
    simp [timestamp_to_datetime, timestamp_probe, h1, h2, h3]
  · intro t d h1 h2 h3 h4
    rw [div_one] at h1
    simp [timestamp_to_datetime, timestamp_probe, h1, h2, h3, h4]
  · intro t h1 h2 h3 h4
    rw [div_one] at h1
    simp [timestamp_to_datetime, timestamp_probe, h1, h2, h3, h4]
  · intro t msg h1
    rw [div_one] at h1
    simp [timestamp_to_datetime, timestamp_probe, h1]
  · intro t msg h1 h2
    rw [div_one] at h1
    simp [timestamp_to_datetime, timestamp_probe, h1, h2]

/-- C5: witness, the probing clauses applied at concrete epochs: the
millisecond clause at 1558014486185, the seconds clause at 1558014486
and the uncaught propagation clause at the nanosecond scale epoch
1558014486185000000, whose seconds probe overflows gmtime. -/
theorem c5_witness :
    timestamp_to_datetime 1558014486185 = .ok 1558014486185000 ∧
    timestamp_to_datetime 1558014486 = .ok 1558014486000000 ∧
    timestamp_to_datetime 1558014486185000000 =
      .error "OSError: Value too large for defined data type" :=
  ⟨c5_amended.2.2.2.2.2.2.1 1558014486185 1558014486185000 (by decide) (by decide),
   c5_amended.2.2.2.2.2.1 1558014486 1558014486000000 (by decide),
   c5_amended.2.2.2.2.2.2.2.2.2.2.1 1558014486185000000
     "OSError: Value too large for defined data type" (by decide)⟩

/-! ## C1 -/

/-- C1: the request signature at the pinned test vector equals the
pinned 128 character hex digest, and in general the signature is the
hex encoded HMAC SHA-512, keyed with the api secret, of the timestamp,
the upper cased method, the path and the body concatenated, with the
subaccount id appended verbatim when present. -/
theorem c1_request_signature :
    request_signature "4961b74efac86b25cce8fbe4c9811c4c7a787b7a5996660afcc2e287ad864363"
      "GET" "/v1/account/balances" "" 1558014486185 Option.none =
      "9d52c181ed69460b49307b7891f04658e938b21181173844b5018b2fe783a6d4c62b8e67a03de4d099e7437ebfabe12c56233b73c6a0cc0f7ae87e05f6289928" ∧
    (∀ (api_secret method path body : String) (ts : Int),
      request_signature api_secret method path body ts Option.none =
        hex_of_bytes (hmac_sha512 (ascii_bytes api_secret)
          (ascii_bytes (toString ts ++ py_upper method ++ path ++ body)))) ∧
    (∀ (api_secret method path body sid : String) (ts : Int),
      request_signature api_secret method path body ts (some sid) =
        hex_of_bytes (hmac_sha512 (ascii_bytes api_secret)
          (ascii_bytes (toString ts ++ py_upper method ++ path ++ body ++ sid)))) :=
  ⟨by decide, fun _ _ _ _ _ => rfl, fun _ _ _ _ _ _ => rfl⟩

end Valr
